import Mathlib

/-!
# Verification of the multi-step authentication flow (myapp)

Shallow embedding of `src/myapp/models.py` and `src/myapp/views.py`:
the `AppUser` record, the credential store (the `AppUser` table, modelled
as a list of records with unique emails maintained by Django), the session
dictionary, and the request handlers `login_view`, `register`,
`verify_code`, `forgot_password`, `verify_reset_code`, `reset_password`,
`logout_view` and `hacer_prediccion_view`.

External collaborators (Django's password hashers, `random.randint`, the
transformer model) are modelled at their boundary: the hasher as a
fixed-salt tagged encoding with the `pbkdf2_sha256$` prefix the code
tests for, the random draw as an explicit outcome parameter ranging over
the draw's outcome space, the model as an availability flag plus an
inference oracle.
-/

namespace MyApp

/-- Python's `str.startswith`, modelled on the character list of the
string (`pre` is a prefix of `s`). -/
def startswith (s pre : String) : Bool :=
  pre.data.isPrefixOf s.data

/-- Modelled from the spec: Django's `make_password` (an external
collaborator of the repository, §4.1 "any password-hashing scheme with
salt").  Fixed-salt model: the encoded value is the `pbkdf2_sha256$`
algorithm tag followed by iteration count, salt and the digest of the raw
password.  The model keeps the two properties the views rely on: the
output carries the `pbkdf2_sha256$` prefix, and `check_password` accepts
exactly the raw password that was encoded. -/
def make_password (raw : String) : String :=
  "pbkdf2_sha256$260000$modelsalt$" ++ raw

/-- Modelled from the spec: Django's `check_password raw encoded`
(§4.1 `verify_password`): re-encodes `raw` with the encoded value's salt
and compares.  In the fixed-salt model this is comparison with
`make_password raw`. -/
def check_password_fn (raw encoded : String) : Bool :=
  encoded == make_password raw

/-- The `AppUser` model of `src/myapp/models.py`: `verification_code`
is nullable (`blank=True, null=True`), the other fields are non-null
strings. -/
structure AppUser where
  first_name : String
  last_name : String
  email : String
  password : String
  verification_code : Option String
deriving DecidableEq, Repr

/-- `AppUser.save` (models.py lines 12-16): hash the password before
persisting unless it already carries the `pbkdf2_sha256$` prefix. -/
def AppUser.save (u : AppUser) : AppUser :=
  if startswith u.password "pbkdf2_sha256$" then u
  else { u with password := make_password u.password }

/-- `AppUser.check_password` (models.py lines 18-20). -/
def AppUser.check_password (u : AppUser) (raw : String) : Bool :=
  check_password_fn raw u.password

/-- `random.randint(100000, 999999)`: outcome `i` of the uniform draw
over the 900000 equally likely results. -/
def randint_100000_999999 (i : Fin 900000) : Nat :=
  100000 + i.val

/-- `AppUser.generate_verification_code` (models.py lines 22-25):
`str(random.randint(100000, 999999))` stored on the record, then
`save()`.  The draw's outcome is the explicit parameter `i`. -/
def AppUser.generate_verification_code (u : AppUser) (i : Fin 900000) : AppUser :=
  AppUser.save { u with verification_code := some (toString (randint_100000_999999 i)) }

/-- The Django session dictionary, restricted to the four keys the auth
flows use.  `none` means the key is absent; `request.session.get`
returns `None` then. -/
structure Session where
  user_email : Option String
  authenticated_user : Option String
  reset_email : Option String
  verified_reset : Option Bool
deriving DecidableEq, Repr

/-- A fresh browser session: no keys set. -/
def Session.empty : Session :=
  { user_email := none, authenticated_user := none,
    reset_email := none, verified_reset := none }

/-- Python falsiness of `request.session.get(key)` for a string-valued
key: `None` and the empty string are falsy. -/
def falsyStr : Option String → Bool
  | none => true
  | some s => s.isEmpty

/-- Python falsiness of `request.session.get("verified_reset")`:
`None` and `False` are falsy. -/
def falsyBool : Option Bool → Bool
  | none => true
  | some b => !b

/-- The credential store (the `AppUser` table) together with the
requesting browser's session. -/
structure ServerState where
  db : List AppUser
  session : Session
deriving DecidableEq, Repr

/-- `AppUser.objects.get(email=e)` for a request field `e` that may be
absent (`None` matches no row, `email` being non-null): the first record
with that email, if any. -/
def dbGetByEmail (db : List AppUser) (e : Option String) : Option AppUser :=
  match e with
  | none => none
  | some s => db.find? (fun u => u.email == s)

/-- `user.save()` persisted to the table: the record replaces the row
with its email (emails are unique in the table), or is inserted at the
end if no row matches. -/
def dbSave (db : List AppUser) (u : AppUser) : List AppUser :=
  match db with
  | [] => [u]
  | v :: rest => if v.email == u.email then u :: rest else v :: dbSave rest u

/-- The responses the auth handlers produce: a template render with an
optional error message, a redirect to a named route, or an unhandled
exception (HTTP 500). -/
inductive HResponse where
  | render (tmpl : String) (error : Option String)
  | redirect (target : String)
  | serverError
deriving DecidableEq, Repr

/-- `login_view` (views.py lines 37-101), POST branch.  `email` and
`password` are `request.POST.get(...)` (absent = `none`); `i` is the
outcome of the `randint` draw inside `generate_verification_code`.
`send_mail` is an external side effect with no bearing on server state. -/
def login_view (st : ServerState) (email password : Option String) (i : Fin 900000) :
    ServerState × HResponse :=
  match dbGetByEmail st.db email with
  | none => (st, .render "login.html" (some "Correo no registrado."))
  | some user =>
    match password with
    | none => (st, .render "login.html" (some "Contraseña incorrecta."))
    | some pw =>
      if !user.check_password pw then
        (st, .render "login.html" (some "Contraseña incorrecta."))
      else
        let user2 := user.generate_verification_code i
        ({ db := dbSave st.db user2,
           session := { st.session with user_email := some user2.email } },
         .redirect "verify_code")

/-- `register` (views.py lines 103-148), POST branch.  The four fields
are `request.POST.get(...)`; a missing or empty field is falsy. -/
def register (st : ServerState) (first_name last_name email password : Option String) :
    ServerState × HResponse :=
  if falsyStr first_name || falsyStr last_name || falsyStr email || falsyStr password then
    (st, .render "register.html" (some "Todos los campos son obligatorios"))
  else if st.db.any (fun u => u.email == email.getD "") then
    (st, .render "register.html" (some "El correo ya está en uso"))
  else
    let user : AppUser :=
      { first_name := first_name.getD "", last_name := last_name.getD "",
        email := email.getD "", password := make_password (password.getD ""),
        verification_code := none }
    ({ st with db := dbSave st.db user.save }, .redirect "login")

/-- `verify_code` (views.py lines 150-187), POST branch.
`AppUser.objects.get(email=email, verification_code=code)` matches the
nullable `verification_code` column against the submitted value, `None`
matching `IS NULL`. -/
def verify_code (st : ServerState) (code : Option String) : ServerState × HResponse :=
  if falsyStr st.session.user_email then
    (st, .redirect "login")
  else
    let email := st.session.user_email.getD ""
    match st.db.find? (fun u => u.email == email && u.verification_code == code) with
    | some user =>
      ({ st with session := { st.session with authenticated_user := some user.email } },
       .redirect "home")
    | none => (st, .render "verify_code.html" (some "Código incorrecto."))

/-- `forgot_password` (views.py lines 189-244), POST branch. -/
def forgot_password (st : ServerState) (email : Option String) (i : Fin 900000) :
    ServerState × HResponse :=
  match dbGetByEmail st.db email with
  | none => (st, .render "forgot_password.html" (some "Correo no registrado."))
  | some user =>
    let user2 := user.generate_verification_code i
    ({ db := dbSave st.db user2,
       session := { st.session with reset_email := some user2.email } },
     .redirect "verify_reset_code")

/-- `verify_reset_code` (views.py lines 246-284), POST branch. -/
def verify_reset_code (st : ServerState) (code : Option String) : ServerState × HResponse :=
  if falsyStr st.session.reset_email then
    (st, .redirect "forgot_password")
  else
    let email := st.session.reset_email.getD ""
    match st.db.find? (fun u => u.email == email && u.verification_code == code) with
    | some _ =>
      ({ st with session := { st.session with verified_reset := some true } },
       .redirect "reset_password")
    | none => (st, .render "verify_reset_code.html" (some "Código incorrecto."))

/-- Modelled from the spec: Django's `make_password(None)` (reachable
when the POST carries no `password` field) produces an unusable password
that no raw password verifies against; on a string it is
`make_password`. -/
def make_password_field : Option String → String
  | none => "!unusable"
  | some p => make_password p

/-- `reset_password` (views.py lines 286-329), POST branch.  The bare
`AppUser.objects.get(email=email)` raises `DoesNotExist` when no row
matches, surfacing as a server error. -/
def reset_password (st : ServerState) (password : Option String) : ServerState × HResponse :=
  if falsyStr st.session.reset_email || falsyBool st.session.verified_reset then
    (st, .redirect "forgot_password")
  else
    let email := st.session.reset_email.getD ""
    match st.db.find? (fun u => u.email == email) with
    | none => (st, .serverError)
    | some user =>
      let user2 := AppUser.save
        { user with password := make_password_field password, verification_code := none }
      ({ db := dbSave st.db user2,
         session := { st.session with reset_email := none, verified_reset := none } },
       .redirect "login")

/-- `logout_view` (views.py lines 331-349): `request.session.flush()`
drops every session key, then redirects to `login`. -/
def logout_view (st : ServerState) : ServerState × HResponse :=
  ({ st with session := Session.empty }, .redirect "login")

/-- The `labels` dictionary of `predecir_con_modelo_entrenado`
(views.py line 449) with its `.get` default. -/
def labelsGet (prediction_id : Nat) : String :=
  if prediction_id == 0 then "Control Sano (CO)"
  else if prediction_id == 1 then "Cáncer Colorrectal (CRC)"
  else "Categoría Desconocida"

/-- `predecir_con_modelo_entrenado` (views.py lines 427-450).  The
transformer model and tokenizer are external collaborators: the two
booleans say whether each loaded at startup (`modelo_cargado`,
`tokenizer_cargado` non-`None`), and `infer` is the oracle giving the
argmax class id the loaded model computes for a text. -/
def predecir_con_modelo_entrenado (modelo_cargado tokenizer_cargado : Bool)
    (infer : String → Nat) (texto : String) : String :=
  if !modelo_cargado || !tokenizer_cargado then
    "Error: Modelo no disponible. Revisa los logs del servidor."
  else
    labelsGet (infer texto)

/-- The template context `hacer_prediccion_view` renders. -/
structure PredContext where
  resultado_prediccion : Option String
  texto_ingresado : String
deriving DecidableEq, Repr

/-- `hacer_prediccion_view` (views.py lines 455-477): on POST with a
non-empty `texto_clinico` it calls the classifier; it always renders
`hacer_prediccion.html` with the context. -/
def hacer_prediccion_view (modelo_cargado tokenizer_cargado : Bool) (infer : String → Nat)
    (isPost : Bool) (texto_clinico : Option String) : String × PredContext :=
  let texto := if isPost then texto_clinico.getD "" else ""
  let resultado :=
    if isPost && !texto.isEmpty then
      some (predecir_con_modelo_entrenado modelo_cargado tokenizer_cargado infer texto)
    else none
  ("hacer_prediccion.html", { resultado_prediccion := resultado, texto_ingresado := texto })

/-- One request to an auth-flow handler, with its POST fields and, for
the handlers that issue a code, the outcome of the random draw. -/
inductive Request where
  | login (email password : Option String) (i : Fin 900000)
  | registerReq (first_name last_name email password : Option String)
  | verifyCode (code : Option String)
  | forgotPassword (email : Option String) (i : Fin 900000)
  | verifyResetCode (code : Option String)
  | resetPassword (password : Option String)
  | logout
deriving DecidableEq, Repr

/-- The state transition a request performs (the handlers' GET branches
and the remaining views only render and never write session or table). -/
def stepState (st : ServerState) : Request → ServerState
  | .login e p i => (login_view st e p i).1
  | .registerReq fn ln e p => (register st fn ln e p).1
  | .verifyCode c => (verify_code st c).1
  | .forgotPassword e i => (forgot_password st e i).1
  | .verifyResetCode c => (verify_reset_code st c).1
  | .resetPassword p => (reset_password st p).1
  | .logout => (logout_view st).1

/-- States reachable by some sequence of requests from a fresh browser
session against an arbitrary initial table. -/
inductive Reachable : ServerState → Prop where
  | init (db : List AppUser) : Reachable { db := db, session := Session.empty }
  | step {st : ServerState} (r : Request) : Reachable st → Reachable (stepState st r)

/-! ## Helper lemmas -/

/-- Hashed passwords carry the `pbkdf2_sha256$` prefix the save guard
tests for. -/
theorem startswith_make_password (p : String) :
    startswith (make_password p) "pbkdf2_sha256$" = true := by
  have hsplit : make_password p = "pbkdf2_sha256$" ++ ("260000$modelsalt$" ++ p) := by
    unfold make_password
    rw [← String.append_assoc]
    rfl
  unfold startswith
  rw [hsplit, String.data_append]
  simp [ List.isPrefixOf_iff_prefix]

/-- In the fixed-salt model, distinct raw passwords hash to distinct
encoded values. -/
theorem make_password_injective {a b : String} (h : make_password a = make_password b) :
    a = b := by
  unfold make_password at h
  have h2 := congrArg String.data h
  rw [String.data_append, String.data_append] at h2
  have h3 := List.append_cancel_left h2
  cases a; cases b; simp_all

/-- `save` never touches the verification code. -/
theorem AppUser.save_verification_code (u : AppUser) :
    u.save.verification_code = u.verification_code := by
  unfold AppUser.save
  split <;> rfl

/-- `save` never touches the email. -/
theorem AppUser.save_email (u : AppUser) : u.save.email = u.email := by
  unfold AppUser.save
  split <;> rfl

/-- `save` is the identity on a record whose password already carries
the hash prefix. -/
theorem AppUser.save_of_hashed (u : AppUser)
    (h : startswith u.password "pbkdf2_sha256$" = true) : u.save = u := by
  unfold AppUser.save
  simp [h]

/-- Looking up the just-saved record by its own email finds it. -/
theorem dbSave_find_of_email (db : List AppUser) (u2 : AppUser) (e : String)
    (h : u2.email = e) :
    (dbSave db u2).find? (fun v => v.email == e) = some u2 := by
  induction db with
  | nil => simp [dbSave, List.find?, h]
  | cons v rest ih =>
    unfold dbSave
    by_cases hv : (v.email == u2.email) = true
    · have hve : v.email = e := (beq_iff_eq.mp hv).trans h
      simp [hve, h, List.find?]
    · have hv1 : (v.email == u2.email) = false := by simpa using hv
      have hv2 : (v.email == e) = false := h ▸ hv1
      simp [hv1, List.find?, hv2, ih]

/-! ## Claims -/

/-- C1: in the `AwaitingCode` state (`user_email` set to a registered
user's email), submitting any candidate that differs from the stored
verification code of every record with that email leaves the server
state — session and user table — unchanged, does not set
`authenticated_user`, and re-renders the step with the error message. -/
theorem verify_code_wrong_code_no_change (st : ServerState) (e : String) (c : Option String)
    (hsess : st.session.user_email = some e)
    (hne : e.isEmpty = false)
    (hreg : ∃ u ∈ st.db, u.email = e)
    (hmismatch : ∀ u ∈ st.db, u.email = e → u.verification_code ≠ c) :
    verify_code st c = (st, .render "verify_code.html" (some "Código incorrecto.")) := by
  unfold verify_code
  rw [hsess]
  have hguard : falsyStr (some e) = false := by simpa [falsyStr] using hne
  rw [hguard]
  have hfind : st.db.find? (fun u => u.email == e && u.verification_code == c) = none := by
    rw [List.find?_eq_none]
    intro u hu
    simp only [Bool.and_eq_true, beq_iff_eq, not_and]
    intro he hc
    exact hmismatch u hu he hc
  simp [hfind]

/-- C1 witness. -/
theorem verify_code_wrong_code_no_change_witness :
    verify_code
      { db := [{ first_name := "Ana", last_name := "Lopez", email := "ana@x.com",
                 password := "pbkdf2_sha256$260000$modelsalt$Secret1",
                 verification_code := some "482913" }],
        session := { user_email := some "ana@x.com", authenticated_user := none,
                     reset_email := none, verified_reset := none } }
      (some "111111")
    = ({ db := [{ first_name := "Ana", last_name := "Lopez", email := "ana@x.com",
                  password := "pbkdf2_sha256$260000$modelsalt$Secret1",
                  verification_code := some "482913" }],
         session := { user_email := some "ana@x.com", authenticated_user := none,
                      reset_email := none, verified_reset := none } },
       .render "verify_code.html" (some "Código incorrecto.")) := by
  apply verify_code_wrong_code_no_change
  · rfl
  · decide
  · exact ⟨{ first_name := "Ana", last_name := "Lopez", email := "ana@x.com",
             password := "pbkdf2_sha256$260000$modelsalt$Secret1",
             verification_code := some "482913" }, by simp, rfl⟩
  · intro u hu _
    simp at hu
    subst hu
    decide

/-- C2: a request arriving at a step-gated view with its session
precondition absent is redirected to the flow's entry state with the
server state untouched: `verify_code` without `user_email` goes to
`login`; `verify_reset_code` without `reset_email` and `reset_password`
without `reset_email` or without `verified_reset` go to
`forgot_password`. -/
theorem step_gate_redirects (st : ServerState) (c c2 pw : Option String) :
    (st.session.user_email = none → verify_code st c = (st, .redirect "login"))
    ∧ (st.session.reset_email = none →
        verify_reset_code st c2 = (st, .redirect "forgot_password"))
    ∧ (st.session.reset_email = none ∨ st.session.verified_reset = none →
        reset_password st pw = (st, .redirect "forgot_password")) := by
  refine ⟨fun h1 => ?_, fun h2 => ?_, fun h3 => ?_⟩
  · unfold verify_code
    rw [h1]
    simp [falsyStr]
  · unfold verify_reset_code
    rw [h2]
    simp [falsyStr]
  · unfold reset_password
    rcases h3 with h3 | h3 <;> rw [h3] <;> simp [falsyStr, falsyBool]

/-- C2 witness. -/
theorem step_gate_redirects_witness :
    (verify_code { db := [], session := Session.empty } (some "482913")
      = ({ db := [], session := Session.empty }, .redirect "login"))
    ∧ (verify_reset_code { db := [], session := Session.empty } (some "482913")
      = ({ db := [], session := Session.empty }, .redirect "forgot_password"))
    ∧ (reset_password { db := [], session := Session.empty } (some "NewPw")
      = ({ db := [], session := Session.empty }, .redirect "forgot_password")) :=
  ⟨(step_gate_redirects { db := [], session := Session.empty }
      (some "482913") (some "482913") (some "NewPw")).1 rfl,
   (step_gate_redirects { db := [], session := Session.empty }
      (some "482913") (some "482913") (some "NewPw")).2.1 rfl,
   (step_gate_redirects { db := [], session := Session.empty }
      (some "482913") (some "482913") (some "NewPw")).2.2 (Or.inl rfl)⟩

/-- C10: a registration POST with any required field missing or empty
creates no record, leaves the store and session unchanged, and
re-renders the form with the required-fields error; since this holds for
every table — in particular one already containing the submitted email —
the required-field rejection precedes the duplicate-email check. -/
theorem register_required_fields (st : ServerState) (fn ln e pw : Option String)
    (h : falsyStr fn = true ∨ falsyStr ln = true ∨ falsyStr e = true ∨ falsyStr pw = true) :
    register st fn ln e pw
      = (st, .render "register.html" (some "Todos los campos son obligatorios")) := by
  unfold register
  rcases h with h | h | h | h <;> simp [h]

/-- C10 witness: empty first name together with an already-registered
email still yields the required-fields error, not the duplicate error. -/
theorem register_required_fields_witness :
    register
      { db := [{ first_name := "Ana", last_name := "Lopez", email := "ana@x.com",
                 password := "pbkdf2_sha256$260000$modelsalt$Secret1",
                 verification_code := none }],
        session := Session.empty }
      (some "") (some "Lopez") (some "ana@x.com") (some "Secret1")
    = ({ db := [{ first_name := "Ana", last_name := "Lopez", email := "ana@x.com",
                  password := "pbkdf2_sha256$260000$modelsalt$Secret1",
                  verification_code := none }],
         session := Session.empty },
       .render "register.html" (some "Todos los campos son obligatorios")) := by
  apply register_required_fields
  exact Or.inl (by decide)

/-- C4 counterexample: the claim says codes are drawn from the full
range 000000–999999, but the outcome 0 — the code whose fixed-width
text is "000000" — is never drawn: `random.randint(100000, 999999)`
never produces a value below 100000. -/
theorem generate_code_counterexample :
    ¬ ∃ i : Fin 900000, randint_100000_999999 i = 0 := by
  rintro ⟨i, h⟩
  unfold randint_100000_999999 at h
  omega

/-- C4 amended: every draw of the issuer is a uniformly random value in
100000–999999 (so six decimal digits, never a leading zero), rendered
with `str` and stored on the user record by
`generate_verification_code`, available there for dispatch. -/
theorem generate_code_range (u : AppUser) (i : Fin 900000) :
    100000 ≤ randint_100000_999999 i
    ∧ randint_100000_999999 i ≤ 999999
    ∧ (u.generate_verification_code i).verification_code
        = some (toString (randint_100000_999999 i)) := by
  refine ⟨?_, ?_, ?_⟩
  · unfold randint_100000_999999; omega
  · unfold randint_100000_999999; omega
  · unfold AppUser.generate_verification_code
    rw [AppUser.save_verification_code]

/-- C5: the login flow never invalidates a verification code after a
successful check.  Concretely: from `AwaitingCode` with stored code
"482913", verifying "482913" completes the flow (sets
`authenticated_user`, redirects home) — and verifying the very same
code again against the resulting state succeeds again. -/
theorem verify_code_reuse_after_login :
    (verify_code
        { db := [{ first_name := "Ana", last_name := "Lopez", email := "ana@x.com",
                   password := "pbkdf2_sha256$260000$modelsalt$Secret1",
                   verification_code := some "482913" }],
          session := { user_email := some "ana@x.com", authenticated_user := none,
                       reset_email := none, verified_reset := none } }
        (some "482913")).2 = HResponse.redirect "home"
    ∧ (verify_code
        { db := [{ first_name := "Ana", last_name := "Lopez", email := "ana@x.com",
                   password := "pbkdf2_sha256$260000$modelsalt$Secret1",
                   verification_code := some "482913" }],
          session := { user_email := some "ana@x.com", authenticated_user := none,
                       reset_email := none, verified_reset := none } }
        (some "482913")).1.session.authenticated_user = some "ana@x.com"
    ∧ (verify_code
        (verify_code
          { db := [{ first_name := "Ana", last_name := "Lopez", email := "ana@x.com",
                     password := "pbkdf2_sha256$260000$modelsalt$Secret1",
                     verification_code := some "482913" }],
            session := { user_email := some "ana@x.com", authenticated_user := none,
                         reset_email := none, verified_reset := none } }
          (some "482913")).1
        (some "482913")).2 = HResponse.redirect "home" := by
  decide

/-- C7 counterexample: a record whose incoming password is the plaintext
"pbkdf2_sha256$attack" — not a hash, merely prefix-tagged — is persisted
by `save` exactly as submitted: the stored value equals the incoming
plaintext and is not the hash of any raw password. -/
theorem save_plaintext_counterexample :
    (AppUser.save
      { first_name := "Ana", last_name := "Lopez", email := "ana@x.com",
        password := "pbkdf2_sha256$attack", verification_code := none }).password
      = "pbkdf2_sha256$attack"
    ∧ ¬ ∃ raw, make_password raw = "pbkdf2_sha256$attack" := by
  constructor
  · decide
  · rintro ⟨raw, h⟩
    have hlen := congrArg String.length h
    rw [make_password, String.length_append] at hlen
    have h31 : ("pbkdf2_sha256$260000$modelsalt$" : String).length = 31 := rfl
    have h20 : ("pbkdf2_sha256$attack" : String).length = 20 := rfl
    rw [h31, h20] at hlen
    omega

/-- C7 amended: `save` hashes the password before persisting whenever
the incoming value does not carry the `pbkdf2_sha256$` prefix, and
persists a prefix-carrying value verbatim — even when that value is
plaintext that merely looks hash-prefixed.  Hence after every save the
stored value carries the hash prefix. -/
theorem save_hash_guard (u : AppUser) :
    (startswith u.password "pbkdf2_sha256$" = false →
        u.save.password = make_password u.password)
    ∧ (startswith u.password "pbkdf2_sha256$" = true → u.save.password = u.password)
    ∧ startswith u.save.password "pbkdf2_sha256$" = true := by
  unfold AppUser.save
  by_cases h : startswith u.password "pbkdf2_sha256$" = true
  · simp [h]
  · have h1 : startswith u.password "pbkdf2_sha256$" = false := by simpa using h
    simp [h1, startswith_make_password]

/-- C7 amended witness: the raw password "Secret1" is hashed by save. -/
theorem save_hash_guard_witness :
    (AppUser.save
      { first_name := "Ana", last_name := "Lopez", email := "ana@x.com",
        password := "Secret1", verification_code := none }).password
      = make_password "Secret1" :=
  (save_hash_guard
    { first_name := "Ana", last_name := "Lopez", email := "ana@x.com",
      password := "Secret1", verification_code := none }).1 (by decide)

/-- C9: whenever the model or the tokenizer failed to load,
`predecir_con_modelo_entrenado` returns the fixed error string instead
of raising, and `hacer_prediccion_view` still completes with a rendered
response — the template is always `hacer_prediccion.html`, and a POST
with non-empty clinical text renders that error string as the result. -/
theorem prediction_model_unavailable (m t : Bool) (infer : String → Nat) (texto : String)
    (h : m = false ∨ t = false) :
    predecir_con_modelo_entrenado m t infer texto
      = "Error: Modelo no disponible. Revisa los logs del servidor."
    ∧ (∀ (isPost : Bool) (tc : Option String),
        (hacer_prediccion_view m t infer isPost tc).1 = "hacer_prediccion.html")
    ∧ (texto.isEmpty = false →
        (hacer_prediccion_view m t infer true (some texto)).2.resultado_prediccion
          = some "Error: Modelo no disponible. Revisa los logs del servidor.") := by
  have herr : predecir_con_modelo_entrenado m t infer texto
      = "Error: Modelo no disponible. Revisa los logs del servidor." := by
    unfold predecir_con_modelo_entrenado
    rcases h with h | h <;> simp [h]
  refine ⟨herr, fun isPost tc => rfl, fun hne => ?_⟩
  unfold hacer_prediccion_view
  simp only [Option.getD_some, if_true]
  rw [hne]
  simpa using herr

/-- C9 witness: tokenizer failed to load, classifying "texto clinico". -/
theorem prediction_model_unavailable_witness :
    predecir_con_modelo_entrenado true false (fun _ => 0) "texto clinico"
      = "Error: Modelo no disponible. Revisa los logs del servidor."
    ∧ (hacer_prediccion_view true false (fun _ => 0) true
        (some "texto clinico")).2.resultado_prediccion
      = some "Error: Modelo no disponible. Revisa los logs del servidor." :=
  ⟨(prediction_model_unavailable true false (fun _ => 0) "texto clinico"
      (Or.inr rfl)).1,
   (prediction_model_unavailable true false (fun _ => 0) "texto clinico"
      (Or.inr rfl)).2.2 (by decide)⟩

/-- C3: with `reset_email` pointing at a stored record and
`verified_reset` true, a POST of a new password to `reset_password`
redirects to login, deletes `reset_email` and `verified_reset` from the
session, and leaves a record on which the old password fails
`check_password`, the new one succeeds, and the verification code is
cleared. -/
theorem reset_password_success (st : ServerState) (e oldPw newPw : String) (u : AppUser)
    (hre : st.session.reset_email = some e)
    (hne : e.isEmpty = false)
    (hvr : st.session.verified_reset = some true)
    (hfind : st.db.find? (fun v => v.email == e) = some u)
    (hdiff : newPw ≠ oldPw) :
    (reset_password st (some newPw)).2 = .redirect "login"
    ∧ (reset_password st (some newPw)).1.session.reset_email = none
    ∧ (reset_password st (some newPw)).1.session.verified_reset = none
    ∧ ∃ u2, (reset_password st (some newPw)).1.db.find? (fun v => v.email == e) = some u2
        ∧ u2.check_password oldPw = false
        ∧ u2.check_password newPw = true
        ∧ u2.verification_code = none := by
  have hguard1 : falsyStr st.session.reset_email = false := by
    rw [hre]; simpa [falsyStr] using hne
  have hguard2 : falsyBool st.session.verified_reset = false := by
    rw [hvr]; rfl
  have hue : u.email = e := by
    have hp := List.find?_some hfind
    simpa using hp
  have hEq : reset_password st (some newPw)
      = ({ db := dbSave st.db
             { u with password := make_password newPw, verification_code := none },
           session := { st.session with reset_email := none, verified_reset := none } },
         .redirect "login") := by
    unfold reset_password
    rw [hguard1, hguard2]
    simp only [Bool.or_self, Bool.false_eq_true, if_false]
    rw [hre]
    simp only [Option.getD_some]
    rw [hfind]
    simp only [make_password_field]
    rw [AppUser.save_of_hashed _ (startswith_make_password newPw)]
  rw [hEq]
  refine ⟨rfl, rfl, rfl, ⟨_, dbSave_find_of_email st.db _ e hue, ?_, ?_, rfl⟩⟩
  · unfold AppUser.check_password check_password_fn
    simp only
    rw [beq_eq_false_iff_ne]
    intro hc
    exact hdiff (make_password_injective hc)
  · unfold AppUser.check_password check_password_fn
    simp

/-- C3 witness. -/
theorem reset_password_success_witness :
    (reset_password
      { db := [{ first_name := "Ana", last_name := "Lopez", email := "ana@x.com",
                 password := make_password "OldPw", verification_code := some "482913" }],
        session := { user_email := none, authenticated_user := none,
                     reset_email := some "ana@x.com", verified_reset := some true } }
      (some "NewPw")).2 = HResponse.redirect "login"
    ∧ ∃ u2,
        (reset_password
          { db := [{ first_name := "Ana", last_name := "Lopez", email := "ana@x.com",
                     password := make_password "OldPw", verification_code := some "482913" }],
            session := { user_email := none, authenticated_user := none,
                         reset_email := some "ana@x.com", verified_reset := some true } }
          (some "NewPw")).1.db.find? (fun v => v.email == "ana@x.com") = some u2
        ∧ u2.check_password "OldPw" = false
        ∧ u2.check_password "NewPw" = true
        ∧ u2.verification_code = none := by
  have h := reset_password_success
    { db := [{ first_name := "Ana", last_name := "Lopez", email := "ana@x.com",
               password := make_password "OldPw", verification_code := some "482913" }],
      session := { user_email := none, authenticated_user := none,
                   reset_email := some "ana@x.com", verified_reset := some true } }
    "ana@x.com" "OldPw" "NewPw"
    { first_name := "Ana", last_name := "Lopez", email := "ana@x.com",
      password := make_password "OldPw", verification_code := some "482913" }
    rfl (by decide) rfl (by simp [List.find?]) (by decide)
  exact ⟨h.1, h.2.2.2⟩

/-- C6: registering a fresh account with all four fields non-empty
succeeds (redirect to login), and a subsequent login with the same
email and password passes the password check, redirects to
`verify_code`, sets `user_email`, issues a verification code on the
record — and leaves `authenticated_user` exactly as it was. -/
theorem register_then_login (st : ServerState) (fn ln e pw : String) (i : Fin 900000)
    (hfn : fn.isEmpty = false) (hln : ln.isEmpty = false)
    (he : e.isEmpty = false) (hpw : pw.isEmpty = false)
    (hnew : ∀ u ∈ st.db, u.email ≠ e) :
    (register st (some fn) (some ln) (some e) (some pw)).2 = .redirect "login"
    ∧ (login_view (register st (some fn) (some ln) (some e) (some pw)).1
         (some e) (some pw) i).2 = .redirect "verify_code"
    ∧ (login_view (register st (some fn) (some ln) (some e) (some pw)).1
         (some e) (some pw) i).1.session.user_email = some e
    ∧ (login_view (register st (some fn) (some ln) (some e) (some pw)).1
         (some e) (some pw) i).1.session.authenticated_user
        = st.session.authenticated_user
    ∧ ∃ u2,
        (login_view (register st (some fn) (some ln) (some e) (some pw)).1
           (some e) (some pw) i).1.db.find? (fun v => v.email == e) = some u2
        ∧ u2.check_password pw = true
        ∧ u2.verification_code = some (toString (randint_100000_999999 i)) := by
  have h1 : falsyStr (some fn) = false := by simpa [falsyStr] using hfn
  have h2 : falsyStr (some ln) = false := by simpa [falsyStr] using hln
  have h3 : falsyStr (some e) = false := by simpa [falsyStr] using he
  have h4 : falsyStr (some pw) = false := by simpa [falsyStr] using hpw
  have hany : st.db.any (fun u => u.email == (some e).getD "") = false := by
    simp only [Option.getD_some, List.any_eq_false]
    intro u hu
    simp only [beq_iff_eq]
    exact hnew u hu
  have hnewu : (AppUser.save
      { first_name := fn, last_name := ln, email := e,
        password := make_password pw, verification_code := none })
      = { first_name := fn, last_name := ln, email := e,
          password := make_password pw, verification_code := none } :=
    AppUser.save_of_hashed _ (startswith_make_password pw)
  have hreg : register st (some fn) (some ln) (some e) (some pw)
      = ({ st with db :=
                    dbSave st.db
                      { first_name := fn, last_name := ln, email := e,
                        password := make_password pw, verification_code := none } },
         .redirect "login") := by
    unfold register
    rw [h1, h2, h3, h4]
    simp only [Bool.or_self, Bool.false_eq_true, if_false]
    rw [hany]
    simp only [Bool.false_eq_true, if_false, Option.getD_some, hnewu]
  have hfind1 : (dbSave st.db
      { first_name := fn, last_name := ln, email := e,
        password := make_password pw, verification_code := none }).find?
        (fun v => v.email == e)
      = some { first_name := fn, last_name := ln, email := e,
               password := make_password pw, verification_code := none } :=
    dbSave_find_of_email st.db _ e rfl
  have hchk : AppUser.check_password
      { first_name := fn, last_name := ln, email := e,
        password := make_password pw, verification_code := none } pw = true := by
    unfold AppUser.check_password check_password_fn
    simp
  have hgen : AppUser.generate_verification_code
      { first_name := fn, last_name := ln, email := e,
        password := make_password pw, verification_code := none } i
      = { first_name := fn, last_name := ln, email := e,
          password := make_password pw,
          verification_code := some (toString (randint_100000_999999 i)) } := by
    unfold AppUser.generate_verification_code
    exact AppUser.save_of_hashed _ (startswith_make_password pw)
  have hlog : login_view (register st (some fn) (some ln) (some e) (some pw)).1
      (some e) (some pw) i
      = ({ db := dbSave
             (dbSave st.db
               { first_name := fn, last_name := ln, email := e,
                 password := make_password pw, verification_code := none })
             { first_name := fn, last_name := ln, email := e,
               password := make_password pw,
               verification_code := some (toString (randint_100000_999999 i)) },
           session := { st.session with user_email := some e } },
         .redirect "verify_code") := by
    rw [hreg]
    unfold login_view dbGetByEmail
    simp only
    rw [hfind1]
    simp only [hchk, Bool.not_true, Bool.false_eq_true, if_false, hgen]
  rw [hlog, hreg]
  refine ⟨rfl, rfl, rfl, rfl, ⟨_, dbSave_find_of_email _ _ e rfl, hchk, rfl⟩⟩

/-- C6 witness. -/
theorem register_then_login_witness :
    (register { db := [], session := Session.empty }
        (some "Ana") (some "Lopez") (some "ana@x.com") (some "Secret1")).2
      = HResponse.redirect "login"
    ∧ (login_view (register { db := [], session := Session.empty }
          (some "Ana") (some "Lopez") (some "ana@x.com") (some "Secret1")).1
        (some "ana@x.com") (some "Secret1") ⟨382913, by decide⟩).2
      = HResponse.redirect "verify_code" := by
  have h := register_then_login { db := [], session := Session.empty }
    "Ana" "Lopez" "ana@x.com" "Secret1" ⟨382913, by decide⟩
    (by decide) (by decide) (by decide) (by decide) (by intro u hu; simp at hu)
  exact ⟨h.1, h.2.1⟩

/-- One request preserves the `verified_reset` invariant: no handler
produces a session with `verified_reset` set but `reset_email` absent. -/
theorem stepState_verified_reset (st : ServerState) (r : Request)
    (h : st.session.verified_reset = some true → ∃ e, st.session.reset_email = some e) :
    (stepState st r).session.verified_reset = some true →
      ∃ e, (stepState st r).session.reset_email = some e := by
  cases r with
  | login e p i =>
    simp only [stepState]
    unfold login_view
    split
    · exact h
    · split
      · exact h
      · split
        · exact h
        · exact h
  | registerReq fn ln e p =>
    simp only [stepState]
    unfold register
    split
    · exact h
    · split
      · exact h
      · exact h
  | verifyCode c =>
    simp only [stepState]
    unfold verify_code
    split
    · exact h
    · dsimp only
      split
      · exact h
      · exact h
  | forgotPassword e i =>
    simp only [stepState]
    unfold forgot_password
    split
    · exact h
    · exact fun _ => ⟨_, rfl⟩
  | verifyResetCode c =>
    simp only [stepState]
    unfold verify_reset_code
    split
    · exact h
    · next hguard =>
      dsimp only
      split
      · intro _
        cases hre : st.session.reset_email with
        | none => rw [hre] at hguard; exact absurd rfl hguard
        | some e2 => exact ⟨e2, rfl⟩
      · exact h
  | resetPassword p =>
    simp only [stepState]
    unfold reset_password
    split
    · exact h
    · dsimp only
      split
      · exact h
      · intro hv
        exact absurd hv (by simp)
  | logout =>
    simp only [stepState]
    unfold logout_view
    intro hv
    exact absurd hv (by simp [Session.empty])

/-- C8: in every server state reachable by any sequence of requests
through the handlers, whenever the session's `verified_reset` flag is
set (true) the session also holds a `reset_email`; no operation ever
produces `verified_reset` set with `reset_email` absent. -/
theorem verified_reset_never_orphaned (st : ServerState) (h : Reachable st) :
    st.session.verified_reset = some true → ∃ e, st.session.reset_email = some e := by
  induction h with
  | init db =>
    intro hv
    simp [Session.empty] at hv
  | step r _ ih =>
    exact stepState_verified_reset _ r ih

/-- C8 witness: the state reached by requesting a reset code for a
registered user and then submitting that code has `verified_reset` set,
and indeed holds a `reset_email`. -/
theorem verified_reset_never_orphaned_witness :
    ∃ e, (stepState (stepState
        { db := [{ first_name := "Ana", last_name := "Lopez", email := "ana@x.com",
                   password := "pbkdf2_sha256$260000$modelsalt$Secret1",
                   verification_code := none }],
          session := Session.empty }
        (.forgotPassword (some "ana@x.com") ⟨382913, by decide⟩))
        (.verifyResetCode (some "482913"))).session.reset_email = some e :=
  verified_reset_never_orphaned _
    (Reachable.step (.verifyResetCode (some "482913"))
      (Reachable.step (.forgotPassword (some "ana@x.com") ⟨382913, by decide⟩)
        (Reachable.init _)))
    (by decide)

end MyApp
